import Mathlib

/-
Verification of the seat-to-camera geometry engine of the `gt-v2` repository.

The Python source under `app/` is shallowly embedded in Lean:
* Python floats are modelled by `ℝ`; Python ints by `ℤ`.
* `math.atan2 y x` is modelled by the argument of the complex number `x + y·i`
  (`Complex.arg`), which agrees with `atan2` on all inputs (there is no signed
  zero in `ℝ`).
* `dict[int, Tier]` is modelled by an association list with unique keys and a
  `find?`-based lookup; `Optional[T]` by `Option T`.
* Python's truthiness-based `a or b` on `Optional[int]` (which falls back both
  on `None` and on `0`) is modelled explicitly in `effectiveWidth` /
  `effectiveHeight`.
Every definition is translated line by line from the corresponding function of
the source; the one exception is `forwardVector` and the `spec`-suffixed
definitions, which are stated from the specification text (their code lives in
the external renderer, respectively only in the spec), as marked in their
doc comments.
-/

noncomputable section

namespace Gtv2

open scoped Classical

/-- Model of Python's `math.atan2(y, x)`: the principal argument of the
complex number `x + y·i`, valued in `(-π, π]`, with `atan2 0 0 = 0`. -/
def atan2 (y x : ℝ) : ℝ := Complex.arg ⟨x, y⟩

/-- Model of Python's `math.degrees`. -/
def degrees (r : ℝ) : ℝ := r * 180 / Real.pi

/-- Model of Python's `math.radians`. -/
def radians (d : ℝ) : ℝ := d * Real.pi / 180

/-! ## Data model (`app/models/venue.py`, `app/models/camera.py`) -/

/-- `Point3D` of `app/models/venue.py`: a point in meters. -/
structure Point3D where
  x : ℝ
  y : ℝ
  z : ℝ

/-- `SeatmapConfig` of `app/models/venue.py`. -/
structure SeatmapConfig where
  file : String
  width : ℤ
  height : ℤ

/-- `Tier` of `app/models/venue.py`. -/
structure Tier where
  elevation : ℝ
  distance_range : ℝ × ℝ

/-- `Section` of `app/models/venue.py`; the polygon is a list of `[x, y]`
vertices in normalized coordinates. -/
structure Section where
  id : String
  tier : ℤ
  polygon : List (ℝ × ℝ)
  angle : ℝ
  row_count : Option ℤ

/-- `Venue` of `app/models/venue.py`; the `tiers` dict is modelled as an
association list with `find?` lookup. -/
structure Venue where
  id : String
  name : String
  type : String
  template : String
  seatmap : SeatmapConfig
  field_center : Point3D
  tiers : List (ℤ × Tier)
  sections : List Section

/-- `Venue.get_tier`: dictionary lookup by tier level. -/
def Venue.get_tier (v : Venue) (tier_level : ℤ) : Option Tier :=
  (v.tiers.find? (fun p => p.1 == tier_level)).map Prod.snd

/-- `CameraRotation` of `app/models/camera.py` (Euler angles in radians:
`x` pitch, `y` yaw, `z` roll per the field docs). -/
structure CameraRotation where
  x : ℝ
  y : ℝ
  z : ℝ

/-- `CameraPosition` of `app/models/camera.py`. -/
structure CameraPosition where
  x : ℝ
  y : ℝ
  z : ℝ
  rotation : CameraRotation
  fov : ℝ

/-! ## Geometry utilities (`app/utils/geometry.py`) -/

/-- The list of predecessor vertices: the source loop pairs vertex `i` with
vertex `j = i - 1` (cyclically, `j` starting at `n - 1`), so zipping the
polygon with this list yields exactly the `(i, j)` pairs of the loop. -/
def prevVertices (polygon : List (ℝ × ℝ)) : List (ℝ × ℝ) :=
  match polygon.getLast? with
  | none => []
  | some v => v :: polygon.dropLast

/-- `point_in_polygon` of `app/utils/geometry.py`: ray-casting crossing test.
The crossing condition is
`((yi > y) != (yj > y)) and (x < (xj - xi) * (y - yi) / (yj - yi) + xi)`. -/
def point_in_polygon (x y : ℝ) (polygon : List (ℝ × ℝ)) : Bool :=
  (polygon.zip (prevVertices polygon)).foldl
    (fun inside e =>
      if (¬ (e.1.2 > y ↔ e.2.2 > y)) ∧
          x < (e.2.1 - e.1.1) * (y - e.1.2) / (e.2.2 - e.1.2) + e.1.1 then
        !inside
      else inside)
    false

/-- `point_in_polygon` with the division operation abstracted: `dv n d`
replaces `n / d` in the crossing test.  Used to state that the result never
depends on the value of a division with zero denominator. -/
def pointInPolygonDiv (dv : ℝ → ℝ → ℝ) (x y : ℝ) (polygon : List (ℝ × ℝ)) : Bool :=
  (polygon.zip (prevVertices polygon)).foldl
    (fun inside e =>
      if (¬ (e.1.2 > y ↔ e.2.2 > y)) ∧
          x < dv ((e.2.1 - e.1.1) * (y - e.1.2)) (e.2.2 - e.1.2) + e.1.1 then
        !inside
      else inside)
    false

/-- `polygon_centroid` of `app/utils/geometry.py`: arithmetic mean of the
vertices, `(0, 0)` for the empty polygon. -/
def polygon_centroid (polygon : List (ℝ × ℝ)) : ℝ × ℝ :=
  if polygon.length = 0 then (0, 0)
  else ((polygon.map Prod.fst).sum / polygon.length,
        (polygon.map Prod.snd).sum / polygon.length)

/-- `distance_to_polygon_edge` of `app/utils/geometry.py`.  The source seeds
its running minimum with `float('inf')` and then takes the minimum over a
nonempty list of edge distances (the polygon has ≥ 3 vertices here); this is
modelled by folding `min` from the first edge distance.  Likewise `max(...)`
over the nonempty vertex list is modelled by folding `max` from `0`, which
agrees because every distance is a square root and hence nonnegative. -/
def distance_to_polygon_edge (x y : ℝ) (polygon : List (ℝ × ℝ)) : ℝ × ℝ :=
  if polygon.length < 3 then (0, 0.5)
  else
    let c := polygon_centroid polygon
    let edges := polygon.zip (polygon.rotate 1)
    let dists := edges.map (fun e =>
      let dx := e.2.1 - e.1.1
      let dy := e.2.2 - e.1.2
      let length_sq := dx * dx + dy * dy
      if length_sq = 0 then Real.sqrt ((x - e.1.1) ^ 2 + (y - e.1.2) ^ 2)
      else
        let t := max 0 (min 1 (((x - e.1.1) * dx + (y - e.1.2) * dy) / length_sq))
        Real.sqrt ((x - (e.1.1 + t * dx)) ^ 2 + (y - (e.1.2 + t * dy)) ^ 2))
    let min_dist := match dists with
      | [] => 0
      | d :: rest => rest.foldl min d
    let dist_from_center := Real.sqrt ((x - c.1) ^ 2 + (y - c.2) ^ 2)
    let max_radius :=
      (polygon.map (fun p => Real.sqrt ((p.1 - c.1) ^ 2 + (p.2 - c.2) ^ 2))).foldl max 0
    let normalized_depth := if max_radius > 0 then dist_from_center / max_radius else 0.5
    (min_dist, min 1 normalized_depth)

/-- `calculate_angle_from_center` of `app/utils/geometry.py`.  The source
declares default arguments `center_x = 0.5`, `center_y = 0.5`; call sites in
this embedding pass them explicitly. -/
def calculate_angle_from_center (x y center_x center_y : ℝ) : ℝ :=
  degrees (atan2 (x - center_x) (-(y - center_y)))

/-- `interpolate_position` of `app/utils/geometry.py`. -/
def interpolate_position (t : ℝ) (start finish : ℝ × ℝ × ℝ) : ℝ × ℝ × ℝ :=
  (start.1 + t * (finish.1 - start.1),
   start.2.1 + t * (finish.2.1 - start.2.1),
   start.2.2 + t * (finish.2.2 - start.2.2))

/-! ## Look-at factory (`app/models/camera.py`) -/

/-- `CameraPosition.from_position_looking_at` of `app/models/camera.py`:
builds a camera at `position` whose Euler angles are computed from the
direction vector to `target`.  The source declares a default argument
`fov = 60.0`; call sites in this embedding pass it explicitly. -/
def CameraPosition.from_position_looking_at
    (position target : ℝ × ℝ × ℝ) (fov : ℝ) : CameraPosition :=
  let px := position.1
  let py := position.2.1
  let pz := position.2.2
  let dx := target.1 - px
  let dy := target.2.1 - py
  let dz := target.2.2 - pz
  let horizontal_dist := Real.sqrt (dx * dx + dy * dy)
  let total_dist := Real.sqrt (dx * dx + dy * dy + dz * dz)
  if total_dist = 0 then
    -- Camera at target: default orientation
    ⟨px, py, pz, ⟨Real.pi / 2, 0, 0⟩, fov⟩
  else
    let pitch_angle :=
      if horizontal_dist > 0 then atan2 dz horizontal_dist
      else if dz > 0 then Real.pi / 2 else -(Real.pi / 2)
    -- rot_x = π/2 - pitch_angle, no roll (y = 0), rot_z = atan2 dx dy
    ⟨px, py, pz, ⟨Real.pi / 2 - pitch_angle, 0, atan2 dx dy⟩, fov⟩

/-! ## Coordinate mapper (`app/services/coordinate_mapper.py`)

The `CoordinateMapper` class only stores the venue; its methods are embedded
as functions taking the venue as the first argument. -/

/-- `CoordinateMapper.find_section`: first section whose polygon contains the
normalized click. -/
def find_section (venue : Venue) (norm_x norm_y : ℝ) : Option Section :=
  venue.sections.find? (fun s => point_in_polygon norm_x norm_y s.polygon)

/-- `CoordinateMapper.estimate_position_from_click`: the fallback path.
Returns `(angle_degrees, estimated_tier, normalized_depth)`. -/
def estimate_position_from_click (norm_x norm_y : ℝ) : ℝ × ℤ × ℝ :=
  let angle_deg := calculate_angle_from_center norm_x norm_y 0.5 0.45
  let dist_from_center := Real.sqrt ((norm_x - 0.5) ^ 2 + (norm_y - 0.45) ^ 2)
  if dist_from_center < 0.25 then
    (angle_deg, 100, dist_from_center / 0.25)
  else if dist_from_center < 0.38 then
    (angle_deg, 200, (dist_from_center - 0.25) / 0.13)
  else
    (angle_deg, 400, min 1 ((dist_from_center - 0.38) / 0.15))

/-- The per-tier default table of the fallback branch of
`map_to_camera_position`: `tier_defaults.get(tier_level, (15.0, 45, 75))`
with entries for 100, 200 and 400. -/
def tier_defaults (tier_level : ℤ) : ℝ × ℝ × ℝ :=
  if tier_level = 100 then (5, 30, 55)
  else if tier_level = 200 then (18, 50, 80)
  else if tier_level = 400 then (38, 70, 100)
  else (15, 45, 75)

/-- Lines 111–147 of `map_to_camera_position`: resolve
`(angle_deg, elevation, min_distance, max_distance, normalized_depth)` from
the normalized click, via the section-found branch or the fallback branch. -/
def resolveClickParams (venue : Venue) (norm_x norm_y : ℝ) : ℝ × ℝ × ℝ × ℝ × ℝ :=
  match find_section venue norm_x norm_y with
  | some s =>
    let tier := venue.get_tier s.tier
    let elevation := match tier with
      | none => 10
      | some t => t.elevation
    let min_distance := match tier with
      | none => 40
      | some t => t.distance_range.1
    let max_distance := match tier with
      | none => 70
      | some t => t.distance_range.2
    let normalized_depth := (distance_to_polygon_edge norm_x norm_y s.polygon).2
    let angle_deg :=
      if s.angle ≠ 0 then s.angle
      else
        let c := polygon_centroid s.polygon
        calculate_angle_from_center c.1 c.2 0.5 0.5
    (angle_deg, elevation, min_distance, max_distance, normalized_depth)
  | none =>
    let est := estimate_position_from_click norm_x norm_y
    let tier := venue.get_tier est.2.1
    let elevation := match tier with
      | none => (tier_defaults est.2.1).1
      | some t => t.elevation
    let min_distance := match tier with
      | none => (tier_defaults est.2.1).2.1
      | some t => t.distance_range.1
    let max_distance := match tier with
      | none => (tier_defaults est.2.1).2.2
      | some t => t.distance_range.2
    (est.1, elevation, min_distance, max_distance, est.2.2)

/-- Line 104 of `map_to_camera_position`:
`width = image_width or self.venue.seatmap.width`.  Python's `or` falls back
both when the argument is `None` and when it is the falsy int `0`. -/
def effectiveWidth (venue : Venue) (image_width : Option ℤ) : ℤ :=
  match image_width with
  | none => venue.seatmap.width
  | some w => if w = 0 then venue.seatmap.width else w

/-- Line 105 of `map_to_camera_position`:
`height = image_height or self.venue.seatmap.height`. -/
def effectiveHeight (venue : Venue) (image_height : Option ℤ) : ℤ :=
  match image_height with
  | none => venue.seatmap.height
  | some h => if h = 0 then venue.seatmap.height else h

/-- The claim's reading of the dimension resolution, stated from the spec's
words ("explicit args override venue-configured seatmap dimensions"): a
provided argument is always used as given. -/
def effectiveWidthSpec (venue : Venue) (image_width : Option ℤ) : ℤ :=
  image_width.getD venue.seatmap.width

/-- `CoordinateMapper.map_to_camera_position`.  The source annotates the
return type `Optional[CameraPosition]`; its single `return` statement wraps
the constructed camera, modelled by `some`.  `home_plate_y = -27` is the
fixed anchor constant of lines 154–156. -/
def map_to_camera_position (venue : Venue) (click_x click_y : ℤ)
    (image_width image_height : Option ℤ) : Option CameraPosition :=
  let width := effectiveWidth venue image_width
  let height := effectiveHeight venue image_height
  let norm_x := (click_x : ℝ) / (width : ℝ)
  let norm_y := (click_y : ℝ) / (height : ℝ)
  let p := resolveClickParams venue norm_x norm_y
  let angle_rad := radians p.1
  let distance := p.2.2.1 + p.2.2.2.2 * (p.2.2.2.1 - p.2.2.1)
  let camera_x := distance * Real.sin angle_rad
  let camera_y := -27 - distance * Real.cos angle_rad
  let camera_z := p.2.1 + p.2.2.2.2 * 3
  some (CameraPosition.from_position_looking_at (camera_x, camera_y, camera_z)
    (venue.field_center.x, venue.field_center.y, venue.field_center.z) 60)

/-! ## Euler-angle application (external renderer)

Modelled from the spec: the application of `rotation_euler` to the camera is
performed by the external Blender renderer (`modal_backend/render_service.py`
only forwards the three angles), so the reconstruction of the camera's
forward axis is not code under `app/`.  The spec fixes the convention: the
default camera orientation points along the "down" (−z) axis, and the Euler
angles are applied in Blender's XYZ order — the standard right-handed
rotation about x, then about y, then about z. -/

/-- Standard right-handed rotation about the x axis. -/
def rotX (a : ℝ) (v : ℝ × ℝ × ℝ) : ℝ × ℝ × ℝ :=
  (v.1,
   Real.cos a * v.2.1 - Real.sin a * v.2.2,
   Real.sin a * v.2.1 + Real.cos a * v.2.2)

/-- Standard right-handed rotation about the y axis. -/
def rotY (b : ℝ) (v : ℝ × ℝ × ℝ) : ℝ × ℝ × ℝ :=
  (Real.cos b * v.1 + Real.sin b * v.2.2,
   v.2.1,
   -(Real.sin b) * v.1 + Real.cos b * v.2.2)

/-- Standard right-handed rotation about the z axis. -/
def rotZ (c : ℝ) (v : ℝ × ℝ × ℝ) : ℝ × ℝ × ℝ :=
  (Real.cos c * v.1 - Real.sin c * v.2.1,
   Real.sin c * v.1 + Real.cos c * v.2.1,
   v.2.2)

/-- Modelled from the spec: the camera's forward axis after the renderer
applies the Euler angles — the default forward vector `(0, 0, -1)` ("down")
rotated about x, then y, then z. -/
def forwardVector (r : CameraRotation) : ℝ × ℝ × ℝ :=
  rotZ r.z (rotY r.y (rotX r.x (0, 0, -1)))

/-! ## Concrete fixtures -/

/-- A minimal venue with no sections and no configured tiers: every click
takes the fallback branch. -/
def testVenue : Venue :=
  ⟨"test", "Test Venue", "baseball", "stadium.blend",
   ⟨"seatmap.png", 100, 100⟩, ⟨0, 0, 0⟩, [], []⟩

/-- The same venue with its focal point moved to `(0, 10, 0)`. -/
def offsetVenue : Venue :=
  ⟨"test2", "Offset Venue", "baseball", "stadium.blend",
   ⟨"seatmap.png", 100, 100⟩, ⟨0, 10, 0⟩, [], []⟩

/-! ## Helper lemmas -/

lemma sum_three_sq_eq_zero_iff (a b c : ℝ) :
    a * a + b * b + c * c = 0 ↔ a = 0 ∧ b = 0 ∧ c = 0 := by
  constructor
  · intro h
    refine ⟨?_, ?_, ?_⟩ <;> nlinarith [mul_self_nonneg a, mul_self_nonneg b, mul_self_nonneg c]
  · rintro ⟨ha, hb, hc⟩
    simp [ha, hb, hc]

lemma lookat_total_dist_ne (px py pz tx ty tz : ℝ)
    (h : (px, py, pz) ≠ ((tx, ty, tz) : ℝ × ℝ × ℝ)) :
    Real.sqrt ((tx - px) * (tx - px) + (ty - py) * (ty - py) + (tz - pz) * (tz - pz)) ≠ 0 := by
  intro h0
  have hsum : (tx - px) * (tx - px) + (ty - py) * (ty - py) + (tz - pz) * (tz - pz) = 0 :=
    (Real.sqrt_eq_zero (add_nonneg (add_nonneg (mul_self_nonneg _) (mul_self_nonneg _))
      (mul_self_nonneg _))).mp h0
  obtain ⟨h1, h2, h3⟩ := (sum_three_sq_eq_zero_iff _ _ _).mp hsum
  exact h (by
    have e1 : px = tx := by linarith [sub_eq_zero.mp h1]
    have e2 : py = ty := by linarith [sub_eq_zero.mp h2]
    have e3 : pz = tz := by linarith [sub_eq_zero.mp h3]
    simp [e1, e2, e3])

/-- The argument of a purely imaginary number: `atan2 dz 0 = ±π/2`, sign
taken from `dz`. -/
lemma atan2_zero_x (dz : ℝ) (h : dz ≠ 0) :
    atan2 dz 0 = if dz > 0 then Real.pi / 2 else -(Real.pi / 2) := by
  rcases lt_or_gt_of_ne h with hneg | hpos
  · rw [if_neg (not_lt.mpr hneg.le)]
    have : -(Real.pi / 2) = -(Real.pi / 2) := rfl
    rw [atan2]
    rw [show (⟨0, dz⟩ : ℂ).arg = -(Real.pi / 2) from
      Complex.arg_eq_neg_pi_div_two_iff.mpr ⟨rfl, hneg⟩]
  · rw [if_pos hpos, atan2]
    exact Complex.arg_eq_pi_div_two_iff.mpr ⟨rfl, hpos⟩

/-- Frame components of the look-at factory, shared by several theorems:
position and fov are passed through and `rotation.y = 0` in both branches. -/
lemma lookat_components (p t : ℝ × ℝ × ℝ) (fov : ℝ) :
    (CameraPosition.from_position_looking_at p t fov).x = p.1 ∧
    (CameraPosition.from_position_looking_at p t fov).y = p.2.1 ∧
    (CameraPosition.from_position_looking_at p t fov).z = p.2.2 ∧
    (CameraPosition.from_position_looking_at p t fov).fov = fov ∧
    (CameraPosition.from_position_looking_at p t fov).rotation.y = 0 := by
  by_cases h : Real.sqrt ((t.1 - p.1) * (t.1 - p.1) + (t.2.1 - p.2.1) * (t.2.1 - p.2.1) +
      (t.2.2 - p.2.2) * (t.2.2 - p.2.2)) = 0 <;>
    simp [CameraPosition.from_position_looking_at, h]

lemma sqrt_sq_pair (a b : ℝ) : Real.sqrt (a ^ 2 + b ^ 2) = Real.sqrt (a * a + b * b) := by
  rw [pow_two, pow_two]

lemma option_map_y (c : CameraPosition) :
    Option.map CameraPosition.y (some c) = some c.y := rfl

/-! ## Claim theorems -/

/-- C10: frame property of the look-at factory — `from_position_looking_at`
returns a camera whose `x`, `y`, `z` are exactly the given position
components and whose `fov` is the given argument, in every branch. -/
theorem from_position_looking_at_frame (px py pz tx ty tz fov : ℝ) :
    (CameraPosition.from_position_looking_at (px, py, pz) (tx, ty, tz) fov).x = px ∧
    (CameraPosition.from_position_looking_at (px, py, pz) (tx, ty, tz) fov).y = py ∧
    (CameraPosition.from_position_looking_at (px, py, pz) (tx, ty, tz) fov).z = pz ∧
    (CameraPosition.from_position_looking_at (px, py, pz) (tx, ty, tz) fov).fov = fov := by
  obtain ⟨h1, h2, h3, h4, _⟩ := lookat_components (px, py, pz) (tx, ty, tz) fov
  exact ⟨h1, h2, h3, h4⟩

/-- C9: the `y` component of the Euler rotation is exactly `0` for every
camera produced by `from_position_looking_at` (both branches) and hence for
every camera returned by `map_to_camera_position`. -/
theorem rotation_y_always_zero (p t : ℝ × ℝ × ℝ) (fov : ℝ) (venue : Venue)
    (click_x click_y : ℤ) (image_width image_height : Option ℤ) :
    (CameraPosition.from_position_looking_at p t fov).rotation.y = 0 ∧
    ∃ cam : CameraPosition,
      map_to_camera_position venue click_x click_y image_width image_height = some cam ∧
      cam.rotation.y = 0 := by
  refine ⟨(lookat_components p t fov).2.2.2.2, ?_⟩
  exact ⟨_, rfl, (lookat_components _ _ _).2.2.2.2⟩

/-- C3: for `P ≠ T` the look-at factory returns pitch
`x = π/2 - atan2 dz (sqrt (dx² + dy²))` (the source's explicit `±π/2` branch
at `horizontal_dist = 0` agrees with this `atan2` value), `y = 0` and
`z = atan2 dx dy`; for `P = T` it returns the degenerate orientation
`(π/2, 0, 0)`. -/
theorem from_position_looking_at_rotation (px py pz tx ty tz fov : ℝ) :
    (((px, py, pz) : ℝ × ℝ × ℝ) ≠ (tx, ty, tz) →
      (CameraPosition.from_position_looking_at (px, py, pz) (tx, ty, tz) fov).rotation =
        ⟨Real.pi / 2 - atan2 (tz - pz) (Real.sqrt ((tx - px) ^ 2 + (ty - py) ^ 2)), 0,
          atan2 (tx - px) (ty - py)⟩) ∧
    (CameraPosition.from_position_looking_at (px, py, pz) (px, py, pz) fov).rotation =
      ⟨Real.pi / 2, 0, 0⟩ := by
  constructor
  · intro hne
    have hTD := lookat_total_dist_ne px py pz tx ty tz hne
    rw [sqrt_sq_pair]
    by_cases hH : Real.sqrt ((tx - px) * (tx - px) + (ty - py) * (ty - py)) > 0
    · simp [CameraPosition.from_position_looking_at, hTD, hH]
    · have hH0 : Real.sqrt ((tx - px) * (tx - px) + (ty - py) * (ty - py)) = 0 :=
        le_antisymm (not_lt.mp hH) (Real.sqrt_nonneg _)
      have hsum : (tx - px) * (tx - px) + (ty - py) * (ty - py) = 0 :=
        (Real.sqrt_eq_zero (add_nonneg (mul_self_nonneg _) (mul_self_nonneg _))).mp hH0
      have hdx : tx - px = 0 := by nlinarith [mul_self_nonneg (tx - px), mul_self_nonneg (ty - py)]
      have hdy : ty - py = 0 := by nlinarith [mul_self_nonneg (tx - px), mul_self_nonneg (ty - py)]
      have hdz : tz - pz ≠ 0 := by
        intro h0
        exact hTD (by rw [hdx, hdy, h0]; simp)
      simp only [CameraPosition.from_position_looking_at, hH0]
      rw [if_neg hTD, if_neg (lt_irrefl (0 : ℝ)), atan2_zero_x _ hdz]
  · simp [CameraPosition.from_position_looking_at]

/-- Witness for C3 at `P = (0,0,0)`, `T = (0,1,0)`. -/
theorem from_position_looking_at_rotation_witness :
    ((0, 0, 0) : ℝ × ℝ × ℝ) ≠ ((0, 1, 0) : ℝ × ℝ × ℝ) ∧
    (CameraPosition.from_position_looking_at (0, 0, 0) (0, 1, 0) 60).rotation =
      ⟨Real.pi / 2 - atan2 ((0 : ℝ) - 0) (Real.sqrt (((0 : ℝ) - 0) ^ 2 + ((1 : ℝ) - 0) ^ 2)), 0,
        atan2 ((0 : ℝ) - 0) ((1 : ℝ) - 0)⟩ := by
  have hne : ((0, 0, 0) : ℝ × ℝ × ℝ) ≠ ((0, 1, 0) : ℝ × ℝ × ℝ) := by
    simp [Prod.ext_iff]
  exact ⟨hne, (from_position_looking_at_rotation 0 0 0 0 1 0 60).1 hne⟩

/-- C1: with a venue whose seatmap dimensions are positive,
`map_to_camera_position` always returns a camera: every click — also one
outside all section polygons — takes either the section branch or the
fallback branch, and both end in the single `some`-returning construction. -/
theorem map_to_camera_position_total (venue : Venue) (click_x click_y : ℤ)
    (image_width image_height : Option ℤ)
    (_hw : 0 < venue.seatmap.width) (_hh : 0 < venue.seatmap.height) :
    (map_to_camera_position venue click_x click_y image_width image_height).isSome = true :=
  rfl

/-- Witness for C1 on a concrete venue and click. -/
theorem map_to_camera_position_total_witness :
    0 < testVenue.seatmap.width ∧ 0 < testVenue.seatmap.height ∧
    (map_to_camera_position testVenue 10 20 none none).isSome = true :=
  ⟨by decide, by decide,
    map_to_camera_position_total testVenue 10 20 none none (by decide) (by decide)⟩

/-- C5: the fallback estimator computes the radial distance `d` of the
normalized click from `(0.5, 0.45)` and buckets it exactly at the thresholds
`0.25` and `0.38`, returning the angle from `(0.5, 0.45)` together with
tier `100` and depth `d/0.25`, tier `200` and depth `(d-0.25)/0.13`, or
tier `400` and depth `min 1 ((d-0.38)/0.15)`. -/
theorem estimate_position_from_click_cases (norm_x norm_y : ℝ) :
    (Real.sqrt ((norm_x - 0.5) ^ 2 + (norm_y - 0.45) ^ 2) < 0.25 →
      estimate_position_from_click norm_x norm_y =
        (calculate_angle_from_center norm_x norm_y 0.5 0.45, 100,
          Real.sqrt ((norm_x - 0.5) ^ 2 + (norm_y - 0.45) ^ 2) / 0.25)) ∧
    (0.25 ≤ Real.sqrt ((norm_x - 0.5) ^ 2 + (norm_y - 0.45) ^ 2) →
      Real.sqrt ((norm_x - 0.5) ^ 2 + (norm_y - 0.45) ^ 2) < 0.38 →
      estimate_position_from_click norm_x norm_y =
        (calculate_angle_from_center norm_x norm_y 0.5 0.45, 200,
          (Real.sqrt ((norm_x - 0.5) ^ 2 + (norm_y - 0.45) ^ 2) - 0.25) / 0.13)) ∧
    (0.38 ≤ Real.sqrt ((norm_x - 0.5) ^ 2 + (norm_y - 0.45) ^ 2) →
      estimate_position_from_click norm_x norm_y =
        (calculate_angle_from_center norm_x norm_y 0.5 0.45, 400,
          min 1 ((Real.sqrt ((norm_x - 0.5) ^ 2 + (norm_y - 0.45) ^ 2) - 0.38) / 0.15))) := by
  refine ⟨?_, ?_, ?_⟩
  · intro h
    simp only [estimate_position_from_click]
    rw [if_pos h]
  · intro h1 h2
    simp only [estimate_position_from_click]
    rw [if_neg (not_lt.mpr h1), if_pos h2]
  · intro h
    have h1 : ¬ Real.sqrt ((norm_x - 0.5) ^ 2 + (norm_y - 0.45) ^ 2) < 0.25 := by
      intro hc; linarith
    have h2 : ¬ Real.sqrt ((norm_x - 0.5) ^ 2 + (norm_y - 0.45) ^ 2) < 0.38 :=
      not_lt.mpr h
    simp only [estimate_position_from_click]
    rw [if_neg h1, if_neg h2]

/-- Witness for C5 at the visual center `(0.5, 0.45)` (distance `0`,
first bucket). -/
theorem estimate_position_from_click_cases_witness :
    Real.sqrt (((0.5 : ℝ) - 0.5) ^ 2 + ((0.45 : ℝ) - 0.45) ^ 2) < 0.25 ∧
    estimate_position_from_click 0.5 0.45 =
      (calculate_angle_from_center 0.5 0.45 0.5 0.45, 100,
        Real.sqrt (((0.5 : ℝ) - 0.5) ^ 2 + ((0.45 : ℝ) - 0.45) ^ 2) / 0.25) := by
  have hd : Real.sqrt (((0.5 : ℝ) - 0.5) ^ 2 + ((0.45 : ℝ) - 0.45) ^ 2) < 0.25 := by
    have : (((0.5 : ℝ) - 0.5) ^ 2 + ((0.45 : ℝ) - 0.45) ^ 2) = 0 := by norm_num
    rw [this, Real.sqrt_zero]
    norm_num
  exact ⟨hd, (estimate_position_from_click_cases 0.5 0.45).1 hd⟩

/-- C7: `point_in_polygon` is total and its crossing test only evaluates the
division at a nonzero denominator: replacing the division by any operation
that agrees with `/` on nonzero denominators — and is arbitrary at zero —
never changes the result, because every edge with `yi = yj` (horizontal or
zero-length) fails the straddle test and is skipped. -/
theorem point_in_polygon_division_safe (dv : ℝ → ℝ → ℝ)
    (hdv : ∀ a b : ℝ, b ≠ 0 → dv a b = a / b) (x y : ℝ) (polygon : List (ℝ × ℝ)) :
    pointInPolygonDiv dv x y polygon = point_in_polygon x y polygon := by
  unfold pointInPolygonDiv point_in_polygon
  apply List.foldl_ext
  intro b e _
  by_cases hy : e.1.2 = e.2.2
  · rw [if_neg, if_neg]
    · rintro ⟨h1, -⟩
      exact h1 (by rw [hy])
    · rintro ⟨h1, -⟩
      exact h1 (by rw [hy])
  · rw [hdv _ _ (sub_ne_zero.mpr (Ne.symm hy))]

/-- Witness for C7: a division defaulting to `37` at denominator `0` gives
the same answer as the source's crossing test on a concrete square. -/
theorem point_in_polygon_division_safe_witness :
    pointInPolygonDiv (fun a b => if b = 0 then 37 else a / b) (1 / 2 : ℝ) (1 / 2)
        [(0, 0), (1, 0), (1, 1), (0, 1)] =
      point_in_polygon (1 / 2 : ℝ) (1 / 2) [(0, 0), (1, 0), (1, 1), (0, 1)] :=
  point_in_polygon_division_safe _ (fun _ _ hb => by rw [if_neg hb]) (1 / 2) (1 / 2) _

/-- C8: `calculate_angle_from_center` returns
`degrees (atan2 (x - center_x) (-(y - center_y)))`, the result lies in
`(-180, 180]`, the center itself maps to `0`, and a point to the right of
the center at equal height yields a positive (clockwise) angle. -/
theorem calculate_angle_from_center_spec (x y center_x center_y : ℝ) :
    calculate_angle_from_center x y center_x center_y =
      degrees (atan2 (x - center_x) (-(y - center_y))) ∧
    -180 < calculate_angle_from_center x y center_x center_y ∧
    calculate_angle_from_center x y center_x center_y ≤ 180 ∧
    calculate_angle_from_center 0.5 0.5 0.5 0.5 = 0 ∧
    0 < calculate_angle_from_center 0.6 0.45 0.5 0.45 := by
  have hπ := Real.pi_pos
  refine ⟨rfl, ?_, ?_, ?_, ?_⟩
  · have h := (Complex.arg_mem_Ioc ⟨-(y - center_y), x - center_x⟩).1
    unfold calculate_angle_from_center degrees atan2
    rw [lt_div_iff₀ hπ]
    linarith
  · have h := (Complex.arg_mem_Ioc ⟨-(y - center_y), x - center_x⟩).2
    unfold calculate_angle_from_center degrees atan2
    rw [div_le_iff₀ hπ]
    linarith
  · have hz : (⟨-((0.5 : ℝ) - 0.5), (0.5 : ℝ) - 0.5⟩ : ℂ) = 0 := by
      apply Complex.ext
      · rw [Complex.zero_re]
        show -((0.5 : ℝ) - 0.5) = 0
        norm_num
      · rw [Complex.zero_im]
        show (0.5 : ℝ) - 0.5 = 0
        norm_num
    unfold calculate_angle_from_center degrees atan2
    rw [hz, Complex.arg_zero, zero_mul, zero_div]
  · have harg : Complex.arg ⟨-((0.45 : ℝ) - 0.45), (0.6 : ℝ) - 0.5⟩ = Real.pi / 2 :=
      Complex.arg_eq_pi_div_two_iff.mpr
        ⟨show -((0.45 : ℝ) - 0.45) = 0 by norm_num, show (0 : ℝ) < 0.6 - 0.5 by norm_num⟩
    unfold calculate_angle_from_center degrees atan2
    rw [harg]
    positivity

/-- C6 counterexample: passing `image_width = 0` does not override the
venue-configured width — Python's `or` treats the provided `0` as falsy and
falls back to the venue's `100`, while the claim (read literally, as
`effectiveWidthSpec`) would use the provided `0`. -/
theorem effective_dimensions_zero_cex :
    effectiveWidth testVenue (some 0) = 100 ∧
    effectiveWidthSpec testVenue (some 0) = 0 ∧
    effectiveWidth testVenue (some 0) ≠ effectiveWidthSpec testVenue (some 0) := by
  refine ⟨by decide, by decide, by decide⟩

/-- C6 (amended): a provided *nonzero* dimension argument always overrides
the venue-configured seatmap dimension, an absent argument falls back to the
venue configuration, and under nonzero provided dimensions the whole mapping
behaves exactly as if the venue had been configured with those dimensions
(so the click is normalized by the provided values). -/
theorem effective_dimensions_override (venue : Venue) (w h : ℤ)
    (hw : w ≠ 0) (hh : h ≠ 0) (click_x click_y : ℤ) :
    effectiveWidth venue (some w) = w ∧
    effectiveHeight venue (some h) = h ∧
    effectiveWidth venue none = venue.seatmap.width ∧
    effectiveHeight venue none = venue.seatmap.height ∧
    map_to_camera_position venue click_x click_y (some w) (some h) =
      map_to_camera_position
        ⟨venue.id, venue.name, venue.type, venue.template,
         ⟨venue.seatmap.file, w, h⟩, venue.field_center, venue.tiers, venue.sections⟩
        click_x click_y none none := by
  have hW : effectiveWidth venue (some w) = w := by
    simp [effectiveWidth, hw]
  have hH : effectiveHeight venue (some h) = h := by
    simp [effectiveHeight, hh]
  refine ⟨hW, hH, rfl, rfl, ?_⟩
  unfold map_to_camera_position
  rw [hW, hH]
  rfl

/-- Witness for C6 on a concrete venue with provided dimensions `3 × 4`. -/
theorem effective_dimensions_override_witness :
    (3 : ℤ) ≠ 0 ∧ (4 : ℤ) ≠ 0 ∧
    (effectiveWidth testVenue (some 3) = 3 ∧
     effectiveHeight testVenue (some 4) = 4 ∧
     effectiveWidth testVenue none = testVenue.seatmap.width ∧
     effectiveHeight testVenue none = testVenue.seatmap.height ∧
     map_to_camera_position testVenue 1 2 (some 3) (some 4) =
       map_to_camera_position
         ⟨testVenue.id, testVenue.name, testVenue.type, testVenue.template,
          ⟨testVenue.seatmap.file, 3, 4⟩, testVenue.field_center, testVenue.tiers,
          testVenue.sections⟩
         1 2 none none) :=
  ⟨by decide, by decide,
    effective_dimensions_override testVenue 3 4 (by decide) (by decide) 1 2⟩

/-- Evaluation of the parameter resolution on `offsetVenue` at the
normalized center click `(0.5, 0.45)`: no section matches, the estimator
yields angle `0`, tier `100`, depth `0`, and the default table supplies
`(elevation, min, max) = (5, 30, 55)`. -/
lemma resolveClickParams_offsetVenue :
    resolveClickParams offsetVenue ((50 : ℝ) / 100) ((45 : ℝ) / 100) =
      (0, 5, 30, 55, 0) := by
  have hangle : calculate_angle_from_center ((50 : ℝ) / 100) ((45 : ℝ) / 100) 0.5 0.45 = 0 := by
    have hz : (⟨-(((45 : ℝ) / 100) - 0.45), ((50 : ℝ) / 100) - 0.5⟩ : ℂ) = 0 := by
      apply Complex.ext
      · rw [Complex.zero_re]
        show -(((45 : ℝ) / 100) - 0.45) = 0
        norm_num
      · rw [Complex.zero_im]
        show ((50 : ℝ) / 100) - 0.5 = 0
        norm_num
    unfold calculate_angle_from_center atan2 degrees
    rw [hz, Complex.arg_zero, zero_mul, zero_div]
  have hd : Real.sqrt ((((50 : ℝ) / 100) - 0.5) ^ 2 + (((45 : ℝ) / 100) - 0.45) ^ 2) = 0 := by
    rw [show (((50 : ℝ) / 100) - 0.5) ^ 2 + (((45 : ℝ) / 100) - 0.45) ^ 2 = 0 by norm_num,
      Real.sqrt_zero]
  have hest : estimate_position_from_click ((50 : ℝ) / 100) ((45 : ℝ) / 100) =
      (0, 100, 0) := by
    unfold estimate_position_from_click
    rw [hangle, hd, if_pos (by norm_num : (0 : ℝ) < 0.25)]
    norm_num
  unfold resolveClickParams
  rw [show find_section offsetVenue ((50 : ℝ) / 100) ((45 : ℝ) / 100) = none from rfl]
  rw [hest]
  norm_num [Venue.get_tier, offsetVenue, tier_defaults]

/-- C2 counterexample: on a venue whose focal point is `(0, 10, 0)`, the
camera for the center click has `y = -57` (the code's fixed anchor
`home_plate_y = -27`), while the claim's anchor `field_center.y - 27 = -17`
would put it at `y = -47`. -/
theorem camera_anchor_cex :
    Option.map CameraPosition.y (map_to_camera_position offsetVenue 50 45 none none) =
      some (-57) ∧
    (offsetVenue.field_center.y - 27) -
      (let p := resolveClickParams offsetVenue ((50 : ℝ) / 100) ((45 : ℝ) / 100)
       (p.2.2.1 + p.2.2.2.2 * (p.2.2.2.1 - p.2.2.1)) * Real.cos (radians p.1)) = -47 ∧
    ((-57 : ℝ) ≠ -47) := by
  have hrad : radians 0 = 0 := by
    unfold radians
    ring
  refine ⟨?_, ?_, by norm_num⟩
  · unfold map_to_camera_position
    rw [show effectiveWidth offsetVenue none = 100 from rfl,
      show effectiveHeight offsetVenue none = 100 from rfl]
    dsimp only
    rw [show ((50 : ℤ) : ℝ) / ((100 : ℤ) : ℝ) = (50 : ℝ) / 100 by norm_num,
      show ((45 : ℤ) : ℝ) / ((100 : ℤ) : ℝ) = (45 : ℝ) / 100 by norm_num]
    rw [resolveClickParams_offsetVenue]
    rw [option_map_y]
    rw [(lookat_components _ _ _).2.1]
    show some ((-27 : ℝ) - (30 + 0 * (55 - 30)) * Real.cos (radians (0 : ℝ))) = some (-57)
    rw [hrad, Real.cos_zero]
    norm_num
  · rw [resolveClickParams_offsetVenue]
    show (offsetVenue.field_center.y - 27) - (30 + 0 * (55 - 30)) * Real.cos (radians 0) = -47
    rw [hrad, Real.cos_zero]
    unfold offsetVenue
    norm_num

/-- C2 (amended): every mapped click yields a camera at
`x = distance·sin(angle)`, `y = -27 - distance·cos(angle)`,
`z = elevation + normalized_depth·3`, with
`distance = min_distance + normalized_depth·(max_distance - min_distance)` —
the anchor ordinate is the fixed constant `-27` (`home_plate_y`),
independent of the venue's `field_center`. -/
theorem camera_cylindrical_position (venue : Venue) (click_x click_y : ℤ)
    (image_width image_height : Option ℤ) :
    ∃ cam : CameraPosition,
      map_to_camera_position venue click_x click_y image_width image_height = some cam ∧
      (let p := resolveClickParams venue
          ((click_x : ℝ) / ((effectiveWidth venue image_width : ℤ) : ℝ))
          ((click_y : ℝ) / ((effectiveHeight venue image_height : ℤ) : ℝ))
       let distance := p.2.2.1 + p.2.2.2.2 * (p.2.2.2.1 - p.2.2.1)
       cam.x = distance * Real.sin (radians p.1) ∧
       cam.y = -27 - distance * Real.cos (radians p.1) ∧
       cam.z = p.2.1 + p.2.2.2.2 * 3) := by
  refine ⟨_, rfl, ?_, ?_, ?_⟩
  · exact (lookat_components _ _ _).1
  · exact (lookat_components _ _ _).2.1
  · exact (lookat_components _ _ _).2.2.1

/-- The look-at factory's Euler angles at `P = (0,0,0)`, `T = (1,0,0)`:
pitch `π/2` and yaw `π/2`. -/
lemma lookat_unit_x_rotation :
    (CameraPosition.from_position_looking_at (0, 0, 0) (1, 0, 0) 60).rotation =
      ⟨Real.pi / 2, 0, Real.pi / 2⟩ := by
  have e1 : (⟨(1 : ℝ), (0 : ℝ)⟩ : ℂ) = 1 := by
    apply Complex.ext
    · rw [Complex.one_re]
    · rw [Complex.one_im]
  have eI : (⟨(0 : ℝ), (1 : ℝ)⟩ : ℂ) = Complex.I := by
    apply Complex.ext
    · rw [Complex.I_re]
    · rw [Complex.I_im]
  have h10 : atan2 ((1 : ℝ) - 0) ((0 : ℝ) - 0) = Real.pi / 2 := by
    unfold atan2
    rw [show ((1 : ℝ) - 0) = 1 by norm_num, show ((0 : ℝ) - 0) = 0 by norm_num, eI,
      Complex.arg_I]
  have h01 : atan2 ((0 : ℝ) - 0) 1 = 0 := by
    unfold atan2
    rw [show ((0 : ℝ) - 0) = 0 by norm_num, e1, Complex.arg_one]
  have hT : Real.sqrt (((1 : ℝ) - 0) * ((1 : ℝ) - 0) + ((0 : ℝ) - 0) * ((0 : ℝ) - 0) +
      ((0 : ℝ) - 0) * ((0 : ℝ) - 0)) = 1 := by
    rw [show ((1 : ℝ) - 0) * ((1 : ℝ) - 0) + ((0 : ℝ) - 0) * ((0 : ℝ) - 0) +
      ((0 : ℝ) - 0) * ((0 : ℝ) - 0) = 1 by norm_num, Real.sqrt_one]
  have hH : Real.sqrt (((1 : ℝ) - 0) * ((1 : ℝ) - 0) + ((0 : ℝ) - 0) * ((0 : ℝ) - 0)) = 1 := by
    rw [show ((1 : ℝ) - 0) * ((1 : ℝ) - 0) + ((0 : ℝ) - 0) * ((0 : ℝ) - 0) = 1 by norm_num,
      Real.sqrt_one]
  unfold CameraPosition.from_position_looking_at
  dsimp only
  rw [hT, hH, if_neg (by norm_num : (1 : ℝ) ≠ 0), if_pos (by norm_num : (1 : ℝ) > 0), h10, h01]
  simp

/-- C4: the round-trip aiming property fails on the code.  At
`P = (0,0,0)`, `T = (1,0,0)` the camera's forward axis — the default
down-pointing forward vector rotated by the returned Euler angles — is
`(-1, 0, 0)`: it points directly *away* from the target, its inner product
with `T - P` is negative, so it is not a nonnegative multiple of `T - P`. -/
theorem lookat_forward_axis_bug :
    forwardVector ((CameraPosition.from_position_looking_at (0, 0, 0) (1, 0, 0) 60).rotation) =
      (-1, 0, 0) ∧
    (forwardVector
        ((CameraPosition.from_position_looking_at (0, 0, 0) (1, 0, 0) 60).rotation)).1 *
        ((1 : ℝ) - 0) +
      (forwardVector
        ((CameraPosition.from_position_looking_at (0, 0, 0) (1, 0, 0) 60).rotation)).2.1 *
        ((0 : ℝ) - 0) +
      (forwardVector
        ((CameraPosition.from_position_looking_at (0, 0, 0) (1, 0, 0) 60).rotation)).2.2 *
        ((0 : ℝ) - 0) < 0 := by
  have hfwd : forwardVector
      ((CameraPosition.from_position_looking_at (0, 0, 0) (1, 0, 0) 60).rotation) =
      (-1, 0, 0) := by
    rw [lookat_unit_x_rotation]
    unfold forwardVector rotX rotY rotZ
    simp [Real.sin_pi_div_two, Real.cos_pi_div_two]
  refine ⟨hfwd, ?_⟩
  rw [hfwd]
  norm_num

end Gtv2

end
